import Mathlib

/-!
Verification development for the presence-for-plex repository.

This file gives a shallow embedding of the playback tracker, the SSE
message handler and stream-error handler (src/plex_server.rs), the
session-probe owner filter (PlexServer::fetch_session), and the metadata
enrichment cache (src/metadata.rs), together with theorems about the
behaviours the specification describes.

Modelling conventions:
- Rust `Instant` values are modelled as `Nat` timestamps (milliseconds on
  a monotone clock); `Duration` comparisons become `Nat` comparisons in
  milliseconds.  `Instant::elapsed()` at time `now` for a stamp `t` is
  `now - t` (truncated subtraction; the monotone clock guarantees
  `t ≤ now`, where truncation then agrees with the non-negative Rust
  duration).
- Rust `u64` arithmetic: `saturating_add` is modelled explicitly by
  `satAdd64` (clamping at `2 ^ 64 - 1`); `abs_diff` never overflows so it
  is plain `Nat` distance.
- The `HashMap` cache is modelled as an association list where insertion
  removes any previous binding for the key; the map operations used by
  the source (`get`, `insert`, `len`, `retain`) are defined on it.
- Async HTTP calls are modelled by passing the response (or a lookup
  oracle) as an explicit argument, and counting how many network
  requests a code path issues.
-/

namespace PresencePlex

/-- `u64::MAX`. -/
def u64Max : Nat := 2 ^ 64 - 1

/-- Rust `u64::saturating_add`. -/
def satAdd64 (a b : Nat) : Nat := min (a + b) u64Max

/-- Rust `u64::abs_diff`. -/
def absDiff (a b : Nat) : Nat := max a b - min a b

/-- `MediaType` from src/plex_server.rs. -/
inductive MediaType where
  | Movie
  | Episode
  | Track
deriving DecidableEq

/-- `PlaybackState` from src/plex_server.rs. -/
inductive PlaybackState where
  | Playing
  | Paused
  | Buffering
  | Stopped
deriving DecidableEq

/-- `MediaInfo` from src/plex_server.rs.  `u32`/`u64` fields are `Nat`. -/
structure MediaInfo where
  title : String
  media_type : MediaType
  show_name : Option String
  season : Option Nat
  episode : Option Nat
  artist : Option String
  album : Option String
  year : Option Nat
  genres : List String
  duration_ms : Nat
  view_offset_ms : Nat
  state : PlaybackState
  imdb_id : Option String
  tmdb_id : Option String
  mal_id : Option String
  art_url : Option String
  rating_key : Option String
  grandparent_key : Option String
  key : Option String
deriving DecidableEq

/-- `SEEK_THRESHOLD_MS` from src/plex_server.rs. -/
def SEEK_THRESHOLD_MS : Nat := 30000

/-- `PlaybackTracker` from src/plex_server.rs; `Instant` is a `Nat` stamp. -/
structure PlaybackTracker where
  cached_info : Option MediaInfo
  source_server : Option String
  last_update : Option Nat
deriving DecidableEq

namespace PlaybackTracker

/-- `PlaybackTracker::new`. -/
def new : PlaybackTracker := ⟨none, none, none⟩

/-- `PlaybackTracker::has_media`. -/
def has_media (t : PlaybackTracker) : Bool := t.cached_info.isSome

/-- `PlaybackTracker::is_same_media`. -/
def is_same_media (t : PlaybackTracker) (rating_key : String) : Bool :=
  (t.cached_info.bind (fun info => info.rating_key)) = some rating_key

/-- `PlaybackTracker::is_duplicate`, with the current time passed
explicitly (`last_update.elapsed()` becomes `now - last_update`). -/
def is_duplicate (t : PlaybackTracker) (now : Nat) (state : PlaybackState)
    (view_offset : Nat) : Bool :=
  match t.cached_info, t.last_update with
  | some info, some last_update =>
    if info.state ≠ state then
      false
    else
      let elapsed_ms := now - last_update
      let expected_offset := satAdd64 info.view_offset_ms elapsed_ms
      let diff := absDiff expected_offset view_offset
      diff ≤ SEEK_THRESHOLD_MS
  | _, _ => false

/-- `PlaybackTracker::update_playback` (`Instant::now()` becomes `now`). -/
def update_playback (t : PlaybackTracker) (now : Nat) (state : PlaybackState)
    (view_offset : Nat) : PlaybackTracker :=
  match t.cached_info with
  | some info =>
    { t with
      cached_info := some { info with state := state, view_offset_ms := view_offset }
      last_update := some now }
  | none => t

/-- `PlaybackTracker::set_media`. -/
def set_media (_t : PlaybackTracker) (now : Nat) (info : MediaInfo)
    (server_uri : String) : PlaybackTracker :=
  ⟨some info, some server_uri, some now⟩

/-- `PlaybackTracker::get_info`. -/
def get_info (t : PlaybackTracker) : Option MediaInfo := t.cached_info

/-- `PlaybackTracker::clear_if_from_server`; returns the new state and the
`bool` the Rust method returns. -/
def clear_if_from_server (t : PlaybackTracker) (server_uri : String) :
    PlaybackTracker × Bool :=
  if t.source_server = some server_uri then
    (⟨none, none, none⟩, true)
  else
    (t, false)

/-- `PlaybackTracker::clear`. -/
def clear (_t : PlaybackTracker) : PlaybackTracker := ⟨none, none, none⟩

end PlaybackTracker

/-- `MediaUpdate` from src/plex_server.rs. -/
inductive MediaUpdate where
  | Playing (info : MediaInfo)
  | Stopped
deriving DecidableEq

/-- `PlaySessionState` from src/plex_server.rs: the payload of a parsed
SSE notification. -/
structure PlaySessionState where
  state : String
  rating_key : String
  view_offset : Option Nat
deriving DecidableEq

/-- Outcome of one `handle_sse_message` call: the tracker afterwards, the
updates sent on the channel, and whether the session fetch
(`fetch_session`) and the enrichment call (`enricher.enrich`) ran. -/
structure HandleResult where
  tracker : PlaybackTracker
  emitted : List MediaUpdate
  did_fetch : Bool
  did_enrich : Bool
deriving DecidableEq

/-- The `match playing.state.as_str()` arm of `handle_sse_message` that
maps the raw phase string to a `PlaybackState` (the `"stopped"` case is
handled before this match in the source). -/
def parseState (s : String) : Option PlaybackState :=
  if s = "playing" then some PlaybackState.Playing
  else if s = "paused" then some PlaybackState.Paused
  else if s = "buffering" then some PlaybackState.Buffering
  else none

/-- `PlexServer::handle_sse_message` from src/plex_server.rs, from the
point where the SSE notification has been parsed into a
`PlaySessionState`.  The session fetch is an async HTTP call; its result
is the explicit argument `fetchResult` (`none` models any probe
failure), and the enricher's effect on the fetched record is the
explicit argument `enrichFn`. -/
def handle_sse_message (t : PlaybackTracker) (now : Nat)
    (playing : PlaySessionState) (server_uri : String)
    (fetchResult : Option MediaInfo) (enrichFn : MediaInfo → MediaInfo) :
    HandleResult :=
  if playing.state = "stopped" then
    if t.has_media then
      ⟨t.clear, [MediaUpdate.Stopped], false, false⟩
    else
      ⟨t, [], false, false⟩
  else
    match parseState playing.state with
    | none => ⟨t, [], false, false⟩
    | some st =>
      let view_offset := playing.view_offset.getD 0
      if t.is_same_media playing.rating_key then
        if t.is_duplicate now st view_offset then
          ⟨t, [], false, false⟩
        else
          let t1 := t.update_playback now st view_offset
          match t1.get_info with
          | some info => ⟨t1, [MediaUpdate.Playing info], false, false⟩
          | none => ⟨t1, [], false, false⟩
      else
        match fetchResult with
        | none => ⟨t, [], true, false⟩
        | some info =>
          let info1 := enrichFn info
          ⟨t.set_media now info1 server_uri, [MediaUpdate.Playing info1], true, true⟩

/-- The `Err(e)` arm of the event loop in `PlexServer::try_connection`:
on a stream error, if the connection had signalled `Open`, clear the
tracker when it is still owned by this endpoint and, exactly when it was
cleared, send a synthetic `Stopped`. -/
def on_stream_error (connection_opened : Bool) (t : PlaybackTracker)
    (server_uri : String) : PlaybackTracker × List MediaUpdate :=
  if connection_opened then
    let r := t.clear_if_from_server server_uri
    (r.1, if r.2 then [MediaUpdate.Stopped] else [])
  else
    (t, [])

/-! ### Session probe and owner filter (`PlexServer::fetch_session`) -/

/-- The fields of the source's `SessionMetadata` that the owner filter in
`fetch_session` inspects: the optional `User` tag's display name, plus an
opaque tag standing for the rest of the session payload. -/
structure SessionMeta where
  user : Option String
  payload : Nat
deriving DecidableEq

/-- The outcome of the `/status/sessions` HTTP probe, passed explicitly:
`failure` models a transport error (`send()` returned `Err`);
`response status body` models an HTTP response, with `body = none` when
the JSON body fails to parse. -/
inductive ProbeResponse where
  | failure
  | response (status : Nat) (body : Option (List SessionMeta))
deriving DecidableEq

/-- `reqwest::StatusCode::is_success()`: 2xx. -/
def statusIsSuccess (s : Nat) : Bool := 200 ≤ s ∧ s ≤ 299

/-- The owner-filter predicate inside `fetch_session`'s
`.find(|m| match (self.username.as_deref(), &m.user) { .. })`. -/
def ownerMatches (username : Option String) (m : SessionMeta) : Bool :=
  match username, m.user with
  | some target, some user => user = target
  | some _, none => false
  | none, _ => true

/-- `PlexServer::fetch_session` from src/plex_server.rs, up to the
selection of the matching session: transport failure, non-success
status, or a JSON parse failure each yield `none`; otherwise the first
session passing the owner filter is returned. -/
def fetch_session (username : Option String) (probe : ProbeResponse) :
    Option SessionMeta :=
  match probe with
  | ProbeResponse.failure => none
  | ProbeResponse.response status body =>
    if ¬ statusIsSuccess status then none
    else
      match body with
      | none => none
      | some sessions => sessions.find? (ownerMatches username)

/-! ### Metadata enrichment cache (src/metadata.rs) -/

/-- `CACHE_TTL_SECS` from src/metadata.rs, converted to the millisecond
time scale used for `Instant` stamps. -/
def CACHE_TTL_MS : Nat := 3600 * 1000

/-- `CACHE_CLEANUP_THRESHOLD` from src/metadata.rs. -/
def CACHE_CLEANUP_THRESHOLD : Nat := 100

/-- `CachedArtwork` from src/metadata.rs. -/
structure CachedArtwork where
  art_url : String
  mal_id : Option String
deriving DecidableEq

/-- `CacheEntry` from src/metadata.rs (`Instant` as a `Nat` stamp). -/
structure CacheEntry where
  value : Option CachedArtwork
  timestamp : Nat
deriving DecidableEq

/-- The enricher's `HashMap<String, CacheEntry>`, as an association
list; `cacheInsert` keeps at most one binding per key. -/
abbrev Cache := List (String × CacheEntry)

/-- `HashMap::get`. -/
def cacheGet (c : Cache) (k : String) : Option CacheEntry :=
  match c.find? (fun p => p.1 = k) with
  | some p => some p.2
  | none => none

/-- `HashMap::insert` (replaces any existing binding for the key). -/
def cacheInsert (c : Cache) (k : String) (e : CacheEntry) : Cache :=
  (k, e) :: c.filter (fun p => p.1 ≠ k)

/-- `MetadataEnricher::cleanup_cache`: a no-op below the threshold,
otherwise `retain(|_, entry| entry.timestamp.elapsed() < ttl)`. -/
def cleanup_cache (c : Cache) (now : Nat) : Cache :=
  if c.length < CACHE_CLEANUP_THRESHOLD then c
  else c.filter (fun p => now - p.2.timestamp < CACHE_TTL_MS)

/-- `MetadataEnricher::get_cached`: a hit only while the entry's age is
below the TTL. -/
def get_cached (c : Cache) (k : String) (now : Nat) :
    Option (Option CachedArtwork) :=
  match cacheGet c k with
  | none => none
  | some entry =>
    if now - entry.timestamp < CACHE_TTL_MS then some entry.value else none

/-- `MetadataEnricher::set_cached`. -/
def set_cached (c : Cache) (k : String) (v : Option CachedArtwork)
    (now : Nat) : Cache :=
  cacheInsert c k ⟨v, now⟩

/-- Rust `{:?}` debug form of `MediaType` (used in cache keys). -/
def mediaTypeDebug : MediaType → String
  | MediaType.Movie => "Movie"
  | MediaType.Episode => "Episode"
  | MediaType.Track => "Track"

/-- Rust `{:?}` debug form of `Option<u32>` (used in cache keys). -/
def optNatDebug : Option Nat → String
  | none => "None"
  | some y => "Some(" ++ toString y ++ ")"

/-- `MetadataEnricher::build_cache_key` from src/metadata.rs. -/
def build_cache_key (info : MediaInfo) : String :=
  match info.media_type with
  | MediaType.Track =>
    let artist := info.artist.getD ""
    let album := info.album.getD ""
    "musicbrainz:" ++ artist ++ ":" ++ album
  | _ =>
    match info.tmdb_id with
    | some tmdb_id =>
      "tmdb:" ++ tmdb_id ++ ":" ++ mediaTypeDebug info.media_type
    | none =>
      let search_title := info.show_name.getD info.title
      "jikan:" ++ search_title ++ ":" ++ optNatDebug info.year

/-- The responses of the three third-party lookup services, passed as an
explicit oracle: `tmdb` is the parsed result of
`fetch_tmdb_artwork`'s HTTP call, `jikan` of `fetch_jikan_artwork`'s,
`musicbrainz_search` of the MusicBrainz release search, and
`coverart_exists` of the Cover Art Archive HEAD probe. -/
structure LookupEnv where
  tmdb : String → MediaType → Option String
  jikan : String → Option Nat → Option CachedArtwork
  musicbrainz_search : String → String → Option String
  coverart_exists : String → Bool

/-- `MetadataEnricher::fetch_tmdb_artwork`: one HTTP request unless the
media type is `Track` (early return).  Returns the result and the
number of network requests issued. -/
def fetch_tmdb_artwork (env : LookupEnv) (tmdb_id : String)
    (mt : MediaType) : Option String × Nat :=
  match mt with
  | MediaType.Track => (none, 0)
  | _ => (env.tmdb tmdb_id mt, 1)

/-- `MetadataEnricher::fetch_jikan_artwork`: one HTTP request. -/
def fetch_jikan_artwork (env : LookupEnv) (title : String)
    (year : Option Nat) : Option CachedArtwork × Nat :=
  (env.jikan title year, 1)

/-- `MetadataEnricher::fetch_musicbrainz_artwork`: a release search
request, then (only when a release was found) a cover-art HEAD probe. -/
def fetch_musicbrainz_artwork (env : LookupEnv) (artist album : String) :
    Option String × Nat :=
  match env.musicbrainz_search artist album with
  | none => (none, 1)
  | some mbid =>
    let cover_url := "https://coverartarchive.org/release/" ++ mbid ++ "/front"
    if env.coverart_exists mbid then (some cover_url, 2) else (none, 2)

/-- `MetadataEnricher::try_tmdb_artwork`: fetches when a TMDB id is
present, writes the result (even `none`) to the cache, applies a found
URL to the record, and reports whether a URL was found.  Returns the
updated record, cache, request count and the `bool` the source returns. -/
def try_tmdb_artwork (env : LookupEnv) (info : MediaInfo) (c : Cache)
    (cache_key : String) (now : Nat) : MediaInfo × Cache × Nat × Bool :=
  match info.tmdb_id with
  | none => (info, c, 0, false)
  | some tmdb_id =>
    let r := fetch_tmdb_artwork env tmdb_id info.media_type
    let c1 := set_cached c cache_key (r.1.map (fun url => ⟨url, none⟩)) now
    match r.1 with
    | some url => ({ info with art_url := some url }, c1, r.2, true)
    | none => (info, c1, r.2, false)

/-- The anime test in `try_jikan_artwork`:
`genres.iter().any(|g| matches g.to_lowercase, "anime" | "animation")`. -/
def isAnime (info : MediaInfo) : Bool :=
  info.genres.any (fun g => g.toLower = "anime" ∨ g.toLower = "animation")

/-- `MetadataEnricher::try_jikan_artwork`: for non-anime records a
"not found" is cached without any request; otherwise the Jikan search
runs and its result (even `none`) is cached and applied. -/
def try_jikan_artwork (env : LookupEnv) (info : MediaInfo) (c : Cache)
    (cache_key : String) (now : Nat) : MediaInfo × Cache × Nat :=
  if ¬ isAnime info then
    (info, set_cached c cache_key none now, 0)
  else
    let search_title := info.show_name.getD info.title
    let r := fetch_jikan_artwork env search_title info.year
    let c1 := set_cached c cache_key r.1 now
    match r.1 with
    | some artwork =>
      ({ info with mal_id := artwork.mal_id, art_url := some artwork.art_url }, c1, r.2)
    | none => (info, c1, r.2)

/-- `MetadataEnricher::try_musicbrainz_artwork`: with artist and album
present the MusicBrainz chain runs and its result (even `none`) is
cached and applied; otherwise a "not found" is cached with no request. -/
def try_musicbrainz_artwork (env : LookupEnv) (info : MediaInfo) (c : Cache)
    (cache_key : String) (now : Nat) : MediaInfo × Cache × Nat :=
  match info.artist, info.album with
  | some artist, some album =>
    let r := fetch_musicbrainz_artwork env artist album
    let c1 := set_cached c cache_key (r.1.map (fun url => ⟨url, none⟩)) now
    match r.1 with
    | some url => ({ info with art_url := some url }, c1, r.2)
    | none => (info, c1, r.2)
  | _, _ => (info, set_cached c cache_key none now, 0)

/-- Outcome of one `MetadataEnricher::enrich` call: the (possibly
augmented) record, the cache afterwards, and the number of network
requests issued. -/
structure EnrichResult where
  info : MediaInfo
  cache : Cache
  network_calls : Nat

/-- `MetadataEnricher::enrich` from src/metadata.rs: sweep, key
derivation, cache probe (a hit — including a cached "not found" —
returns with no request), then the kind-appropriate lookup chain. -/
def enrich (env : LookupEnv) (info : MediaInfo) (c : Cache) (now : Nat) :
    EnrichResult :=
  let c0 := cleanup_cache c now
  let cache_key := build_cache_key info
  match get_cached c0 cache_key now with
  | some cached =>
    match cached with
    | some artwork =>
      ⟨{ info with art_url := some artwork.art_url, mal_id := artwork.mal_id }, c0, 0⟩
    | none => ⟨info, c0, 0⟩
  | none =>
    if info.media_type = MediaType.Track then
      let r := try_musicbrainz_artwork env info c0 cache_key now
      ⟨r.1, r.2.1, r.2.2⟩
    else
      let r := try_tmdb_artwork env info c0 cache_key now
      if r.2.2.2 then
        ⟨r.1, r.2.1, r.2.2.1⟩
      else
        let r2 := try_jikan_artwork env r.1 r.2.1 cache_key now
        ⟨r2.1, r2.2.1, r.2.2.1 + r2.2.2⟩

/-! ### Specification-side definitions (for comparison with the source) -/

/-- The extrapolated position as the specification's words define it
(claim C1): stored position plus elapsed wall-clock time when the stored
phase is Playing, and the raw stored position for Paused/Buffering.
This is the claim's definition, kept separate from the source's
`is_duplicate`, which adds the elapsed time for every phase. -/
def specExtrapolated (storedState : PlaybackState) (storedPos elapsed : Nat) : Nat :=
  match storedState with
  | PlaybackState.Playing => storedPos + elapsed
  | _ => storedPos

/-- The cache key as the amended claim C7 describes it: music tracks
always key by artist plus album; movies and episodes key by the TMDB id
plus media kind when a TMDB id is known on the record (other external
ids are not consulted), and otherwise by the search title (show name
when present, else title) plus year. -/
def amendedCacheKey (info : MediaInfo) : String :=
  if info.media_type = MediaType.Track then
    "musicbrainz:" ++ info.artist.getD "" ++ ":" ++ info.album.getD ""
  else
    match info.tmdb_id with
    | some tmdb_id => "tmdb:" ++ tmdb_id ++ ":" ++ mediaTypeDebug info.media_type
    | none => "jikan:" ++ info.show_name.getD info.title ++ ":" ++ optNatDebug info.year

/-- The all-present-or-all-absent shape invariant of the tracker state
(claim C10). -/
def trackerInv (t : PlaybackTracker) : Prop :=
  (t.cached_info ≠ none ∧ t.source_server ≠ none ∧ t.last_update ≠ none) ∨
  (t.cached_info = none ∧ t.source_server = none ∧ t.last_update = none)

/-! ### Sample data for witnesses and counterexamples -/

/-- A paused movie record, as stored by the tracker. -/
def pausedInfo : MediaInfo :=
  { title := "m", media_type := MediaType.Movie, show_name := none,
    season := none, episode := none, artist := none, album := none,
    year := some 1999, genres := [], duration_ms := 600000,
    view_offset_ms := 0, state := PlaybackState.Paused, imdb_id := none,
    tmdb_id := none, mal_id := none, art_url := none,
    rating_key := some "rk1", grandparent_key := none, key := none }

/-- A tracker populated by `set_media` at time 0 from endpoint s1. -/
def pausedTracker : PlaybackTracker := ⟨some pausedInfo, some "http://s1", some 0⟩

/-! ### Claim theorems -/

/-- Claim C10: in every reachable tracker state the cached record, the
source-server identity and the last-update stamp are all present or all
absent; creation, `set_media`, `update_playback`, `clear` and
`clear_if_from_server` each preserve the invariant, and `update_playback`
on an empty tracker changes nothing. -/
theorem c10_tracker_fields_all_or_none :
    trackerInv PlaybackTracker.new ∧
    (∀ (t : PlaybackTracker) (now : Nat) (info : MediaInfo) (uri : String),
      trackerInv (t.set_media now info uri)) ∧
    (∀ (t : PlaybackTracker) (now : Nat) (st : PlaybackState) (off : Nat),
      trackerInv t → trackerInv (t.update_playback now st off)) ∧
    (∀ (t : PlaybackTracker) (now : Nat) (st : PlaybackState) (off : Nat),
      t.cached_info = none → t.update_playback now st off = t) ∧
    (∀ t : PlaybackTracker, trackerInv t.clear) ∧
    (∀ (t : PlaybackTracker) (uri : String),
      trackerInv t → trackerInv (t.clear_if_from_server uri).1) := by
  refine ⟨Or.inr ⟨rfl, rfl, rfl⟩, ?_, ?_, ?_, ?_, ?_⟩
  · intro t now info uri
    exact Or.inl ⟨by simp [PlaybackTracker.set_media],
      by simp [PlaybackTracker.set_media], by simp [PlaybackTracker.set_media]⟩
  · intro t now st off hinv
    match h : t.cached_info with
    | none => simpa [PlaybackTracker.update_playback, h] using hinv
    | some info =>
      rcases hinv with hfull | hempty
      · exact Or.inl ⟨by simp [PlaybackTracker.update_playback, h],
          by simpa [PlaybackTracker.update_playback, h] using hfull.2.1,
          by simp [PlaybackTracker.update_playback, h]⟩
      · exact absurd hempty.1 (by simp [h])
  · intro t now st off h
    simp [PlaybackTracker.update_playback, h]
  · intro t
    exact Or.inr ⟨rfl, rfl, rfl⟩
  · intro t uri hinv
    unfold PlaybackTracker.clear_if_from_server
    by_cases h : t.source_server = some uri
    · simp only [h, if_pos rfl]
      exact Or.inr ⟨rfl, rfl, rfl⟩
    · simpa [h] using hinv

/-- Witness for C10 at concrete inputs: a populated tracker keeps the
invariant through `update_playback`, an empty tracker is unchanged by
`update_playback`, and a `clear_if_from_server` from a different
endpoint keeps the invariant. -/
theorem c10_tracker_fields_all_or_none_witness :
    trackerInv (pausedTracker.update_playback 5 PlaybackState.Playing 7) ∧
    (PlaybackTracker.new.update_playback 5 PlaybackState.Playing 7 = PlaybackTracker.new) ∧
    trackerInv (pausedTracker.clear_if_from_server "http://s2").1 :=
  ⟨c10_tracker_fields_all_or_none.2.2.1 pausedTracker 5 PlaybackState.Playing 7
     (Or.inl ⟨by decide, by decide, by decide⟩),
   c10_tracker_fields_all_or_none.2.2.2.1 PlaybackTracker.new 5 PlaybackState.Playing 7 rfl,
   c10_tracker_fields_all_or_none.2.2.2.2.2 pausedTracker "http://s2"
     (Or.inl ⟨by decide, by decide, by decide⟩)⟩

/-- Claim C5: a "stopped" event on a non-empty tracker clears the state
(the result is the empty tracker) and emits exactly one Stopped update,
with no session fetch and no enrichment; on an empty tracker (in
particular on a second consecutive "stopped") nothing is emitted and the
tracker is left as it was (empty). -/
theorem c5_stopped_event (t : PlaybackTracker) (now : Nat)
    (ps : PlaySessionState) (uri : String) (fetch : Option MediaInfo)
    (enr : MediaInfo → MediaInfo) (hstop : ps.state = "stopped") :
    (t.has_media = true →
      handle_sse_message t now ps uri fetch enr =
        ⟨PlaybackTracker.new, [MediaUpdate.Stopped], false, false⟩) ∧
    (t.has_media = false →
      handle_sse_message t now ps uri fetch enr = ⟨t, [], false, false⟩) := by
  constructor
  · intro hm
    simp [handle_sse_message, hstop, hm, PlaybackTracker.clear, PlaybackTracker.new]
  · intro hm
    simp [handle_sse_message, hstop, hm]

/-- Witness for C5 at concrete inputs: the populated sample tracker
clears and emits one Stopped; the empty tracker emits nothing. -/
theorem c5_stopped_event_witness :
    (handle_sse_message pausedTracker 9 ⟨"stopped", "rk1", none⟩ "http://s1" none id =
      ⟨PlaybackTracker.new, [MediaUpdate.Stopped], false, false⟩) ∧
    (handle_sse_message PlaybackTracker.new 9 ⟨"stopped", "rk1", none⟩ "http://s1" none id =
      ⟨PlaybackTracker.new, [], false, false⟩) :=
  ⟨(c5_stopped_event pausedTracker 9 ⟨"stopped", "rk1", none⟩ "http://s1" none id rfl).1 rfl,
   (c5_stopped_event PlaybackTracker.new 9 ⟨"stopped", "rk1", none⟩ "http://s1" none id rfl).2 rfl⟩

/-- Claim C3: on a subscription stream error, a synthetic Stopped is
emitted if and only if the connection had signalled opened and the
tracked state was set by this endpoint; in that case the tracker is
cleared, and in every other case the tracker is unchanged and nothing is
emitted. -/
theorem c3_stream_error_stop (opened : Bool) (t : PlaybackTracker)
    (uri : String) :
    ((on_stream_error opened t uri).2 = [MediaUpdate.Stopped] ↔
      (opened = true ∧ t.source_server = some uri)) ∧
    (opened = true → t.source_server = some uri →
      (on_stream_error opened t uri).1 = PlaybackTracker.new) ∧
    (¬ (opened = true ∧ t.source_server = some uri) →
      on_stream_error opened t uri = (t, [])) := by
  unfold on_stream_error PlaybackTracker.clear_if_from_server
  by_cases ho : opened = true
  · by_cases hs : t.source_server = some uri
    · simp [ho, hs, PlaybackTracker.new]
    · simp [ho, hs]
  · simp [ho]

/-- Witness for C3 at concrete inputs: an opened connection whose
endpoint owns the tracked state emits Stopped and clears; a connection
that never opened leaves everything alone. -/
theorem c3_stream_error_stop_witness :
    ((on_stream_error true pausedTracker "http://s1").2 = [MediaUpdate.Stopped]) ∧
    ((on_stream_error true pausedTracker "http://s1").1 = PlaybackTracker.new) ∧
    (on_stream_error false pausedTracker "http://s1" = (pausedTracker, [])) :=
  ⟨(c3_stream_error_stop true pausedTracker "http://s1").1.mpr ⟨rfl, rfl⟩,
   (c3_stream_error_stop true pausedTracker "http://s1").2.1 rfl rfl,
   (c3_stream_error_stop false pausedTracker "http://s1").2.2 (by simp)⟩

/-- Claim C1 counterexample: a paused session ping 60 seconds after the
last update, at the unchanged position.  Session identity and phase
match the stored record, and the position is exactly the claim's
extrapolated position (the raw stored position, since the stored phase
is Paused), so the claim classifies the event as a duplicate with
nothing emitted; the code adds the elapsed wall-clock time for every
phase, computes a 60000 ms deviation, and emits an update. -/
theorem c1_counterexample :
    pausedTracker.is_same_media "rk1" = true ∧
    parseState "paused" = some pausedInfo.state ∧
    absDiff (specExtrapolated pausedInfo.state pausedInfo.view_offset_ms 60000) 0
      ≤ SEEK_THRESHOLD_MS ∧
    (handle_sse_message pausedTracker 60000 ⟨"paused", "rk1", some 0⟩
      "http://s1" none id).emitted ≠ [] := by
  refine ⟨by decide, by decide, by decide, ?_⟩
  decide

/-- Claim C1 (amended): for every incoming event whose session identity
equals the stored identity and whose phase equals the stored phase, the
handler discards it with nothing emitted and the tracker unchanged if
and only if its position is within the 30-second seek-noise threshold of
the stored position plus elapsed wall-clock time since the last update,
the elapsed-time addition being applied for every stored phase (also
Paused and Buffering), with `u64` saturating addition. -/
theorem c1_duplicate_iff (info : MediaInfo) (src : String) (lu now : Nat)
    (ps : PlaySessionState) (uri : String) (fetch : Option MediaInfo)
    (enr : MediaInfo → MediaInfo)
    (hrk : info.rating_key = some ps.rating_key)
    (hst : parseState ps.state = some info.state) :
    ((handle_sse_message ⟨some info, some src, some lu⟩ now ps uri fetch enr).emitted = [] ∧
     (handle_sse_message ⟨some info, some src, some lu⟩ now ps uri fetch enr).tracker =
       ⟨some info, some src, some lu⟩) ↔
    absDiff (satAdd64 info.view_offset_ms (now - lu)) (ps.view_offset.getD 0)
      ≤ SEEK_THRESHOLD_MS := by
  have hns : ¬ ps.state = "stopped" := by
    intro h
    rw [h] at hst
    simp [parseState] at hst
  have hsame : PlaybackTracker.is_same_media ⟨some info, some src, some lu⟩ ps.rating_key = true := by
    simp [PlaybackTracker.is_same_media, hrk]
  by_cases hd : absDiff (satAdd64 info.view_offset_ms (now - lu)) (ps.view_offset.getD 0)
      ≤ SEEK_THRESHOLD_MS
  · have hdup : PlaybackTracker.is_duplicate ⟨some info, some src, some lu⟩ now
        info.state (ps.view_offset.getD 0) = true := by
      simp [PlaybackTracker.is_duplicate, hd]
    simp [handle_sse_message, hns, hst, hsame, hdup, hd]
  · have hdup : PlaybackTracker.is_duplicate ⟨some info, some src, some lu⟩ now
        info.state (ps.view_offset.getD 0) = false := by
      simp [PlaybackTracker.is_duplicate, hd]
    simp [handle_sse_message, hns, hst, hsame, hdup, hd,
      PlaybackTracker.update_playback, PlaybackTracker.get_info]

/-- The sample record, playing at position 1000 ms. -/
def playingInfo : MediaInfo :=
  { pausedInfo with state := PlaybackState.Playing, view_offset_ms := 1000 }

/-- Witness for the amended C1 at concrete inputs: a playing session
ping 2 seconds later at position 3100 ms against a stored position of
1000 ms (the spec's own scenario) is discarded as a duplicate. -/
theorem c1_duplicate_iff_witness :
    (handle_sse_message ⟨some playingInfo, some "http://s1", some 0⟩ 2000
      ⟨"playing", "rk1", some 3100⟩ "http://s1" none id).emitted = [] :=
  ((c1_duplicate_iff playingInfo
    "http://s1" 0 2000 ⟨"playing", "rk1", some 3100⟩ "http://s1" none id
    rfl rfl).mpr (by decide)).1

/-- Claim C4 counterexample: a paused session, 60 seconds after the last
update, reporting a seek to 40000 ms.  Identity and phase match, and the
position deviates from the claim's extrapolated position (the raw stored
position 0, since the stored phase is Paused) by 40000 ms — more than
the threshold — so the claim requires an in-place update and a Playing
emission; the code extrapolates with elapsed time for every phase
(expected 60000 ms, deviation 20000 ms) and discards the event as a
duplicate, emitting nothing and leaving the tracker unchanged. -/
theorem c4_counterexample :
    pausedTracker.is_same_media "rk1" = true ∧
    parseState "paused" = some pausedInfo.state ∧
    SEEK_THRESHOLD_MS <
      absDiff (specExtrapolated pausedInfo.state pausedInfo.view_offset_ms 60000) 40000 ∧
    handle_sse_message pausedTracker 60000 ⟨"paused", "rk1", some 40000⟩
      "http://s1" none id = ⟨pausedTracker, [], false, false⟩ := by
  refine ⟨by decide, by decide, by decide, ?_⟩
  decide

/-- Claim C4 (amended): for an incoming event with the stored session identity
where the phase changed or the position deviates from the extrapolated
position (stored position plus elapsed time) by more than the threshold,
the handler updates the stored phase, position and last-update stamp in
place and emits one Playing update carrying the stored record with only
the phase and position replaced; the source endpoint is kept, every
other metadata field is the stored one, and neither the session fetch
nor the enricher runs. -/
theorem c4_in_place_update (info : MediaInfo) (src : String) (lu now : Nat)
    (ps : PlaySessionState) (uri : String) (fetch : Option MediaInfo)
    (enr : MediaInfo → MediaInfo) (st : PlaybackState)
    (hrk : info.rating_key = some ps.rating_key)
    (hst : parseState ps.state = some st)
    (hchange : st ≠ info.state ∨
      SEEK_THRESHOLD_MS <
        absDiff (satAdd64 info.view_offset_ms (now - lu)) (ps.view_offset.getD 0)) :
    handle_sse_message ⟨some info, some src, some lu⟩ now ps uri fetch enr =
      ⟨⟨some { info with state := st, view_offset_ms := ps.view_offset.getD 0 },
        some src, some now⟩,
       [MediaUpdate.Playing
          { info with state := st, view_offset_ms := ps.view_offset.getD 0 }],
       false, false⟩ := by
  have hns : ¬ ps.state = "stopped" := by
    intro h
    rw [h] at hst
    simp [parseState] at hst
  have hsame : PlaybackTracker.is_same_media ⟨some info, some src, some lu⟩ ps.rating_key = true := by
    simp [PlaybackTracker.is_same_media, hrk]
  have hdup : PlaybackTracker.is_duplicate ⟨some info, some src, some lu⟩ now
      st (ps.view_offset.getD 0) = false := by
    rcases hchange with hph | hgap
    · have hne : info.state ≠ st := Ne.symm hph
      simp [PlaybackTracker.is_duplicate, hne]
    · simp [PlaybackTracker.is_duplicate, Nat.not_le.mpr hgap]
  simp [handle_sse_message, hns, hst, hsame, hdup,
    PlaybackTracker.update_playback, PlaybackTracker.get_info]

/-- Witness for C4 at concrete inputs: a seek from 0 ms to 40000 ms two
seconds after the last update (deviation 38000 ms, above the threshold)
re-emits in place with only phase and position changed. -/
theorem c4_in_place_update_witness :
    handle_sse_message pausedTracker 2000 ⟨"paused", "rk1", some 40000⟩
      "http://s1" none id =
      ⟨⟨some { pausedInfo with state := PlaybackState.Paused, view_offset_ms := 40000 },
        some "http://s1", some 2000⟩,
       [MediaUpdate.Playing
          { pausedInfo with state := PlaybackState.Paused, view_offset_ms := 40000 }],
       false, false⟩ :=
  c4_in_place_update pausedInfo "http://s1" 0 2000 ⟨"paused", "rk1", some 40000⟩
    "http://s1" none id PlaybackState.Paused rfl rfl (Or.inr (by decide))

/-- Claim C2 counterexample: the session-list probe answers 403
(permission denied) while the body even names a session owned by the
configured user "alice"; the code checks `status.is_success()` first and
drops the event (`fetch_session` returns `none`), where the claim says a
permission-denied probe response is affirmative proof of ownership and
the event is accepted. -/
theorem c2_counterexample :
    fetch_session (some "alice")
      (ProbeResponse.response 403 (some [⟨some "alice", 0⟩])) = none := by
  decide

/-- Claim C2 (amended): when a session owner filter is configured, an
event is accepted only for a session whose owner display name exactly
matches the configured username, and every probe failure — a transport
error, a body that fails to parse, or any non-success HTTP status,
permission-denied included — drops the event. -/
theorem c2_owner_filter (target : String) (probe : ProbeResponse) :
    (∀ m, fetch_session (some target) probe = some m → m.user = some target) ∧
    (∀ status body, probe = ProbeResponse.response status body →
      statusIsSuccess status = false → fetch_session (some target) probe = none) ∧
    (∀ status, probe = ProbeResponse.response status none →
      fetch_session (some target) probe = none) ∧
    (fetch_session (some target) ProbeResponse.failure = none) := by
  refine ⟨?_, ?_, ?_, rfl⟩
  · intro m hm
    match probe with
    | ProbeResponse.failure => simp [fetch_session] at hm
    | ProbeResponse.response status body =>
      simp only [fetch_session] at hm
      by_cases hs : statusIsSuccess status = true
      · rw [if_neg (not_not_intro hs)] at hm
        match body with
        | none => simp at hm
        | some sessions =>
          simp only at hm
          have hp := List.find?_some hm
          unfold ownerMatches at hp
          match hu : m.user with
          | none => rw [hu] at hp; simp at hp
          | some user =>
            rw [hu] at hp
            simp only [decide_eq_true_eq] at hp
            exact congrArg some hp
      · rw [if_pos hs] at hm
        simp at hm
  · intro status body hpr hs
    subst hpr
    simp [fetch_session, hs]
  · intro status hpr
    subst hpr
    unfold fetch_session
    by_cases hs : statusIsSuccess status
    · simp [hs]
    · simp [hs]

/-- Witness for the amended C2 at concrete inputs: a 200 response naming
sessions of two users yields the configured user's session (so an
accepted session's owner matches); a 403 response and a transport error
both yield nothing. -/
theorem c2_owner_filter_witness :
    ((⟨some "alice", 1⟩ : SessionMeta).user = some "alice") ∧
    (fetch_session (some "alice") (ProbeResponse.response 500 (some [⟨some "alice", 0⟩])) = none) ∧
    (fetch_session (some "alice") ProbeResponse.failure = none) :=
  ⟨(c2_owner_filter "alice"
      (ProbeResponse.response 200 (some [⟨some "bob", 0⟩, ⟨some "alice", 1⟩]))).1
      ⟨some "alice", 1⟩ (by decide),
   (c2_owner_filter "alice" (ProbeResponse.response 500 (some [⟨some "alice", 0⟩]))).2.1
      500 (some [⟨some "alice", 0⟩]) rfl (by decide),
   (c2_owner_filter "alice" ProbeResponse.failure).2.2.2⟩

/-- A music track whose record carries a TMDB id; used to refute the
claimed priority of external ids in cache-key derivation. -/
def trackInfoA : MediaInfo :=
  { title := "Song", media_type := MediaType.Track, show_name := none,
    season := none, episode := none, artist := some "ArtistA",
    album := some "AlbumX", year := some 2020, genres := [],
    duration_ms := 180000, view_offset_ms := 0,
    state := PlaybackState.Playing, imdb_id := none,
    tmdb_id := some "603", mal_id := none, art_url := none,
    rating_key := some "rk2", grandparent_key := none, key := none }

/-- The same track record with a different artist. -/
def trackInfoB : MediaInfo := { trackInfoA with artist := some "ArtistB" }

/-- Claim C7 counterexample: two track records with the same known
external id ("603") and the same media kind get different cache keys,
because for tracks the code always keys by artist plus album and never
consults the external id; under the claim, a known external id would
determine the key together with the kind alone. -/
theorem c7_counterexample :
    trackInfoA.tmdb_id = some "603" ∧
    trackInfoB.tmdb_id = trackInfoA.tmdb_id ∧
    trackInfoB.media_type = trackInfoA.media_type ∧
    build_cache_key trackInfoA ≠ build_cache_key trackInfoB := by
  refine ⟨rfl, rfl, rfl, ?_⟩
  decide

/-- Claim C7 (amended): the derived cache key is artist plus album for
every music track (external ids are not consulted for tracks); for
movies and episodes it is the TMDB id plus media kind when a TMDB id is
known on the record (other external ids are not consulted), and
otherwise the search title (show name when present, else title) plus
year. -/
theorem c7_cache_key (info : MediaInfo) :
    build_cache_key info = amendedCacheKey info := by
  unfold build_cache_key amendedCacheKey
  match hmt : info.media_type with
  | MediaType.Track => simp
  | MediaType.Movie => match info.tmdb_id with
    | some tmdb_id => simp
    | none => simp
  | MediaType.Episode => match info.tmdb_id with
    | some tmdb_id => simp
    | none => simp

/-- Claim C8: the sweep is a no-op while the entry count is below the
cleanup threshold, and when it runs it keeps exactly the entries whose
age is below the TTL — every unexpired entry survives as the very same
key/value/timestamp pair, and an entry is removed exactly when its age
reached the TTL. -/
theorem c8_cleanup_sweep (c : Cache) (now : Nat) :
    (c.length < CACHE_CLEANUP_THRESHOLD → cleanup_cache c now = c) ∧
    (CACHE_CLEANUP_THRESHOLD ≤ c.length →
      ∀ (k : String) (e : CacheEntry),
        (k, e) ∈ cleanup_cache c now ↔
          ((k, e) ∈ c ∧ now - e.timestamp < CACHE_TTL_MS)) := by
  constructor
  · intro h
    simp [cleanup_cache, h]
  · intro h k e
    rw [cleanup_cache, if_neg (Nat.not_lt.mpr h)]
    simp [List.mem_filter]

/-- A cache holding one hundred entries, all stamped at time 0. -/
def bigCache : Cache :=
  (List.range 100).map (fun i => (toString i, ⟨none, 0⟩))

/-- Witness for C8 at concrete inputs: the empty cache is left alone by
the sweep, and with one hundred fresh entries the sweep keeps entry "7"
untouched. -/
theorem c8_cleanup_sweep_witness :
    cleanup_cache [] 0 = [] ∧
    ("7", (⟨none, 0⟩ : CacheEntry)) ∈ cleanup_cache bigCache 5 :=
  ⟨(c8_cleanup_sweep [] 0).1 (by decide),
   ((c8_cleanup_sweep bigCache 5).2 (by decide) "7" ⟨none, 0⟩).mpr
     ⟨by decide, by decide⟩⟩

/-- Claim C9: a lookup never returns a cache entry whose age strictly
exceeds the TTL, on any cache — whether or not the threshold sweep has
run since the entry expired. -/
theorem c9_expired_never_hit (c : Cache) (k : String) (now : Nat)
    (e : CacheEntry) (hget : cacheGet c k = some e)
    (hold : CACHE_TTL_MS < now - e.timestamp) :
    get_cached c k now = none := by
  unfold get_cached
  rw [hget]
  simp only
  rw [if_neg (Nat.not_lt.mpr (Nat.le_of_lt hold))]

/-- Witness for C9 at concrete inputs: a lone entry stamped at time 0 is
not returned two hours (in milliseconds) later, though no sweep ran. -/
theorem c9_expired_never_hit_witness :
    get_cached [("k", ⟨none, 0⟩)] "k" 7200000 = none :=
  c9_expired_never_hit [("k", ⟨none, 0⟩)] "k" 7200000 ⟨none, 0⟩ rfl (by decide)

/-! ### Lemmas about the cache map, toward claim C6 -/

/-- A `find?`-based lookup survives a `filter` that keeps the found
pair: the first binding for a key is still the first binding after
filtering. -/
theorem cacheGet_filter (c : Cache) (p : String × CacheEntry → Bool)
    (k : String) (e : CacheEntry) (h : cacheGet c k = some e)
    (hp : p (k, e) = true) : cacheGet (c.filter p) k = some e := by
  induction c with
  | nil => simp [cacheGet] at h
  | cons hd tl ih =>
    by_cases hk : hd.1 = k
    · have he : hd.2 = e := by
        simp [cacheGet, List.find?_cons, hk] at h
        exact h
      have hhd : hd = (k, e) := by
        cases hd
        simp_all
      subst hhd
      rw [List.filter_cons, if_pos hp]
      simp [cacheGet, List.find?_cons]
    · have htl : cacheGet tl k = some e := by
        simpa [cacheGet, List.find?_cons, hk] using h
      rw [List.filter_cons]
      by_cases hphd : p hd = true
      · rw [if_pos hphd]
        simpa [cacheGet, List.find?_cons, hk] using ih htl
      · rw [if_neg hphd]
        exact ih htl

/-- Looking up the key just written by `set_cached` yields the written
entry. -/
theorem cacheGet_set_cached (c : Cache) (k : String)
    (v : Option CachedArtwork) (now : Nat) :
    cacheGet (set_cached c k v now) k = some ⟨v, now⟩ := by
  simp [set_cached, cacheInsert, cacheGet, List.find?_cons]

/-- A successful `get_cached` exposes an underlying entry within TTL. -/
theorem get_cached_some (c : Cache) (k : String) (now : Nat)
    (v : Option CachedArtwork) (h : get_cached c k now = some v) :
    ∃ e : CacheEntry, cacheGet c k = some e ∧
      now - e.timestamp < CACHE_TTL_MS ∧ e.value = v := by
  unfold get_cached at h
  cases hg : cacheGet c k with
  | none => rw [hg] at h; simp at h
  | some e =>
    rw [hg] at h
    simp only at h
    by_cases ht : now - e.timestamp < CACHE_TTL_MS
    · rw [if_pos ht] at h
      exact ⟨e, rfl, ht, by injection h⟩
    · rw [if_neg ht] at h
      simp at h

/-- `try_musicbrainz_artwork` always writes some value under the key
with the call's timestamp. -/
theorem try_musicbrainz_writes (env : LookupEnv) (info : MediaInfo)
    (c : Cache) (k : String) (now : Nat) :
    ∃ v, (try_musicbrainz_artwork env info c k now).2.1 = set_cached c k v now := by
  unfold try_musicbrainz_artwork
  cases ha : info.artist with
  | none => exact ⟨none, rfl⟩
  | some artist =>
    cases hb : info.album with
    | none => exact ⟨none, rfl⟩
    | some album =>
      cases hr : (fetch_musicbrainz_artwork env artist album).1 with
      | none => exact ⟨none, by simp [hr]⟩
      | some url => exact ⟨some ⟨url, none⟩, by simp [hr]⟩

/-- `try_jikan_artwork` always writes some value under the key with the
call's timestamp. -/
theorem try_jikan_writes (env : LookupEnv) (info : MediaInfo) (c : Cache)
    (k : String) (now : Nat) :
    ∃ v, (try_jikan_artwork env info c k now).2.1 = set_cached c k v now := by
  unfold try_jikan_artwork
  by_cases ha : isAnime info = true
  · rw [if_neg (not_not_intro ha)]
    cases hr : (fetch_jikan_artwork env (info.show_name.getD info.title) info.year).1 with
    | none => exact ⟨none, by simp [hr]⟩
    | some artwork => exact ⟨some artwork, by simp [hr]⟩
  · rw [if_pos ha]
    exact ⟨none, rfl⟩

/-- With a TMDB id present, `try_tmdb_artwork` writes some value under
the key with the call's timestamp. -/
theorem try_tmdb_writes (env : LookupEnv) (info : MediaInfo) (c : Cache)
    (k : String) (now : Nat) (tmdb_id : String)
    (h : info.tmdb_id = some tmdb_id) :
    ∃ v, (try_tmdb_artwork env info c k now).2.1 = set_cached c k v now := by
  unfold try_tmdb_artwork
  rw [h]
  cases hr : (fetch_tmdb_artwork env tmdb_id info.media_type).1 with
  | none => exact ⟨none, by simp [hr]⟩
  | some url => exact ⟨some ⟨url, none⟩, by simp [hr]⟩

/-- Without a TMDB id, `try_tmdb_artwork` does nothing at all. -/
theorem try_tmdb_skips (env : LookupEnv) (info : MediaInfo) (c : Cache)
    (k : String) (now : Nat) (h : info.tmdb_id = none) :
    try_tmdb_artwork env info c k now = (info, c, 0, false) := by
  unfold try_tmdb_artwork
  rw [h]

/-- After any `enrich` call, the cache holds an entry at the derived key
whose age (at the call's time) is below the TTL: a hit leaves the
surviving entry in place, and every miss path writes the lookup result
back under the derived key before returning. -/
theorem enrich_cache_fresh (env : LookupEnv) (info : MediaInfo) (c : Cache)
    (now : Nat) :
    ∃ e : CacheEntry,
      cacheGet (enrich env info c now).cache (build_cache_key info) = some e ∧
      now - e.timestamp < CACHE_TTL_MS := by
  cases hg : get_cached (cleanup_cache c now) (build_cache_key info) now with
  | some cached =>
    obtain ⟨e, he, ht, _⟩ := get_cached_some _ _ _ _ hg
    refine ⟨e, ?_, ht⟩
    cases cached with
    | some artwork => simpa [enrich, hg] using he
    | none => simpa [enrich, hg] using he
  | none =>
    have hfresh : now - now < CACHE_TTL_MS := by simp [CACHE_TTL_MS]
    by_cases htr : info.media_type = MediaType.Track
    · obtain ⟨v, hv⟩ :=
        try_musicbrainz_writes env info (cleanup_cache c now) (build_cache_key info) now
      refine ⟨⟨v, now⟩, ?_, hfresh⟩
      simp only [enrich, hg, htr, if_true, eq_self_iff_true]
      rw [hv]
      exact cacheGet_set_cached ..
    · cases hsucc : (try_tmdb_artwork env info (cleanup_cache c now)
          (build_cache_key info) now).2.2.2 with
      | true =>
        cases hid : info.tmdb_id with
        | none =>
          rw [try_tmdb_skips env info (cleanup_cache c now)
            (build_cache_key info) now hid] at hsucc
          simp at hsucc
        | some tmdb_id =>
          obtain ⟨v, hv⟩ := try_tmdb_writes env info (cleanup_cache c now)
            (build_cache_key info) now tmdb_id hid
          refine ⟨⟨v, now⟩, ?_, hfresh⟩
          simp only [enrich, hg, if_neg htr, hsucc, if_true]
          rw [hv]
          exact cacheGet_set_cached ..
      | false =>
        obtain ⟨v, hv⟩ := try_jikan_writes env
          (try_tmdb_artwork env info (cleanup_cache c now) (build_cache_key info) now).1
          (try_tmdb_artwork env info (cleanup_cache c now) (build_cache_key info) now).2.1
          (build_cache_key info) now
        refine ⟨⟨v, now⟩, ?_, hfresh⟩
        simp only [enrich, hg, if_neg htr, hsucc, Bool.false_eq_true, if_false]
        rw [hv]
        exact cacheGet_set_cached ..

/-- Claim C6: after `enrich(x)`, a second `enrich` on any record that
derives the same cache key issues no network request while the entry the
first call left under that key is within TTL — also when that entry is a
cached "not found" — and this holds whatever the lookup services would
answer the second time. -/
theorem c6_no_second_network_call (env env2 : LookupEnv) (x y : MediaInfo)
    (c : Cache) (t1 t2 : Nat) (e : CacheEntry)
    (hkey : build_cache_key y = build_cache_key x)
    (hlook : cacheGet (enrich env x c t1).cache (build_cache_key x) = some e)
    (hfresh : t2 - e.timestamp < CACHE_TTL_MS) :
    (enrich env2 y (enrich env x c t1).cache t2).network_calls = 0 := by
  have hget2 : cacheGet (cleanup_cache (enrich env x c t1).cache t2)
      (build_cache_key y) = some e := by
    unfold cleanup_cache
    by_cases hl : (enrich env x c t1).cache.length < CACHE_CLEANUP_THRESHOLD
    · rw [if_pos hl, hkey]
      exact hlook
    · rw [if_neg hl, hkey]
      exact cacheGet_filter _ _ _ e hlook (by simp [hfresh])
  have hhit : get_cached (cleanup_cache (enrich env x c t1).cache t2)
      (build_cache_key y) t2 = some e.value := by
    unfold get_cached
    rw [hget2]
    simp only
    rw [if_pos hfresh]
  generalize hC : (enrich env x c t1).cache = C at hhit ⊢
  cases hv : e.value with
  | none => simp [enrich, hhit, hv]
  | some artwork => simp [enrich, hhit, hv]

/-- A lookup environment whose services never find anything. -/
def noEnv : LookupEnv :=
  ⟨fun _ _ => none, fun _ _ => none, fun _ _ => none, fun _ => false⟩

/-- A music track with no artist tag: its enrichment caches a "not
found" without any network request. -/
def trackNoArtist : MediaInfo := { trackInfoA with artist := none }

/-- Witness for C6 at concrete inputs: enriching the artist-less track
twice from an empty cache, ten milliseconds apart, issues no network
request on the second call even though the first result was "not
found". -/
theorem c6_no_second_network_call_witness :
    (enrich noEnv trackNoArtist
      (enrich noEnv trackNoArtist [] 0).cache 10).network_calls = 0 :=
  c6_no_second_network_call noEnv noEnv trackNoArtist trackNoArtist [] 0 10
    ⟨none, 0⟩ rfl (by decide) (by decide)

end PresencePlex
